import Mathlib

/-!
# Verification of the retry orchestration engine of `confluent-go`

Shallow embedding of `pkg/retry/retry.go` and the error type of `pkg/api`
(`Error`, its `RetryAfter` accessor and the status-code predicates).

Modelling conventions:
* Go `time.Duration` (an `int64` of nanoseconds) and Go `float64` arithmetic
  are modelled over `ℚ`; `Second` is the `time.Second` constant.  Floating
  point rounding and `time.Duration` truncation are abstracted away; the
  claims under study are order/equality facts that do not hinge on them.
* The random draw of `secureRandUnitFloat64` is an explicit parameter
  `r : Option ℚ` (`none` models the `crand.Read` error path, in which the
  jitter perturbation is skipped but the final non-negativity clamp still runs).
* `context.Context` cancellation is modelled by two oracles:
  `ctxDone i` — the `ctx.Done()` channel is already closed at the non-blocking
  check before attempt `i`; `cancelWait i` — during the wait after attempt `i`
  the `ctx.Done()` branch of the `select` wins the race against `time.After`.
* The Go interface value returned by the operation is `GoError`:
  either a `*api.Error` (constructor `.api`) or any other error
  (constructor `.other`, carrying an opaque message); the type assertion
  `err.(*api.Error)` in `Do` succeeds exactly on `.api`.
* `Strategy.retryableErrors` has Go type `func(*api.Error) bool`; a nil
  pointer argument is modelled as `none : Option ApiError`.
-/

/-- One nanosecond is the unit; `time.Second` in `time.Duration` units. -/
def Second : ℚ := 1000000000

/-- A value stored in the `Details map[string]interface{}` of `api.Error`:
either a Go `string` (the only dynamic type `RetryAfter` inspects via the
type assertion `.(string)`) or any other dynamic type. -/
inductive DetailVal where
  | str (s : String)
  | nonString
deriving DecidableEq, Repr

/-- `api.Error` from the `api` package: a Confluent API error.  The `Err`
field (underlying wrapped error) is omitted: the retry engine never reads it. -/
structure ApiError where
  Code : ℤ
  ErrorCode : String
  Message : String
  Details : List (String × DetailVal)
deriving DecidableEq, Repr

/-- `strconv.Atoi` digit run: all characters must be decimal digits and
there must be at least one. -/
def atoiDigits (cs : List Char) : Option ℕ :=
  if cs = [] then none
  else if cs.all (fun c => c.isDigit) then
    some (cs.foldl (fun acc c => acc * 10 + (c.toNat - 48)) 0)
  else none

/-- `strconv.Atoi`: optional sign, decimal digits, 64-bit `int` range check
(out-of-range input yields an error in Go, modelled as `none`). -/
def atoi (s : String) : Option ℤ :=
  let signDigits : Bool × List Char :=
    match s.data with
    | '-' :: rest => (true, rest)
    | '+' :: rest => (false, rest)
    | cs => (false, cs)
  match atoiDigits signDigits.2 with
  | some n =>
      let v : ℤ := if signDigits.1 then -(n : ℤ) else (n : ℤ)
      if -(2 ^ 63) ≤ v ∧ v ≤ 2 ^ 63 - 1 then some v else none
  | none => none

/-- `(*api.Error).IsRateLimited`: true iff the code is 429
(`http.StatusTooManyRequests`). -/
def ApiError.IsRateLimited (e : ApiError) : Bool :=
  decide (e.Code = 429)

/-- `(*api.Error).IsInternalServerError`: true iff the code is ≥ 500
(`http.StatusInternalServerError`). -/
def ApiError.IsInternalServerError (e : ApiError) : Bool :=
  decide (500 ≤ e.Code)

/-- `(*api.Error).RetryAfter`: 0 for a non-429 code; for 429, the parsed
`Details["retry_after"]` string if it is a string that `strconv.Atoi`
accepts, otherwise the default of 60 seconds. -/
def ApiError.RetryAfter (e : ApiError) : ℤ :=
  if e.Code ≠ 429 then 0
  else
    match e.Details.lookup "retry_after" with
    | some (.str s) =>
        match atoi s with
        | some seconds => seconds
        | none => 60
    | _ => 60

/-- The `retry_after` hint of an error as `Do`/`RetryAfter` would parse it:
`some n` iff `Details["retry_after"]` holds a string accepted by
`strconv.Atoi` with value `n`; `none` when the entry is absent, not a
string, or unparseable. -/
def parsedRetryHint (e : ApiError) : Option ℤ :=
  match e.Details.lookup "retry_after" with
  | some (.str s) => atoi s
  | _ => none

/-- A Go `error` value returned by the operation: either a `*api.Error`
or some other error type (the type assertion in `Do` fails on `.other`). -/
inductive GoError where
  | api (e : ApiError)
  | other (msg : String)
deriving DecidableEq, Repr

/-- `retry.Strategy`: the retry configuration.  `maxAttempts` is a Go `int`;
the builder clamps it to ≥ 1, and a non-positive value would simply run the
loop zero times, which `ℕ` with value 0 models faithfully. -/
structure Strategy where
  maxAttempts : ℕ
  initialBackoff : ℚ
  maxBackoff : ℚ
  multiplier : ℚ
  addJitter : Bool
  retryableErrors : Option ApiError → Bool

/-- `retry.DefaultRetryableErrors`: retry on 429 or any 500+ code;
a nil `*api.Error` is never retryable. -/
def DefaultRetryableErrors : Option ApiError → Bool
  | none => false
  | some e => e.IsRateLimited || e.IsInternalServerError

/-- `retry.AggressiveRetryableErrors`: retry on 429 or any code in 500..599;
a nil `*api.Error` is never retryable. -/
def AggressiveRetryableErrors : Option ApiError → Bool
  | none => false
  | some e => decide (e.Code = 429) || (decide (500 ≤ e.Code) && decide (e.Code ≤ 599))

/-- `retry.ConservativeRetryableErrors`: retry only on 429, 503 or 504;
a nil `*api.Error` is never retryable. -/
def ConservativeRetryableErrors : Option ApiError → Bool
  | none => false
  | some e => decide (e.Code = 429) || decide (e.Code = 503) || decide (e.Code = 504)

/-- `retry.DefaultStrategy`: 5 attempts, 1s initial backoff, 60s max backoff,
multiplier 2.0, jitter on, default retryable-error policy. -/
def DefaultStrategy : Strategy :=
  { maxAttempts := 5
    initialBackoff := Second
    maxBackoff := 60 * Second
    multiplier := 2
    addJitter := true
    retryableErrors := DefaultRetryableErrors }

/-- The exponential backoff of `calculateBackoff` before the jitter step:
`initialBackoff * multiplier^attemptsSoFar`, capped at `maxBackoff`. -/
def baseBackoff (s : Strategy) (attemptsSoFar : ℕ) : ℚ :=
  let backoff := s.initialBackoff * s.multiplier ^ attemptsSoFar
  if backoff > s.maxBackoff then s.maxBackoff else backoff

/-- `(*Strategy).calculateBackoff`: exponential backoff capped at
`maxBackoff`; when jitter is on, a ±20% perturbation driven by the random
draw `r` (skipped when the secure random source fails, `r = none`),
then clamped to be non-negative. -/
def calculateBackoff (s : Strategy) (attemptsSoFar : ℕ) (r : Option ℚ) : ℚ :=
  let backoff := baseBackoff s attemptsSoFar
  if s.addJitter then
    let jittered :=
      match r with
      | some rv => backoff + backoff * 0.2 * (2 * rv - 1)
      | none => backoff
    if jittered < 0 then 0 else jittered
  else backoff

/-- The classification step of `Do`: the type assertion
`err.(*api.Error)` followed by `s.retryableErrors(apiErr)`; an error that
is not a `*api.Error` is never retryable. -/
def classifyRetryable (s : Strategy) : GoError → Bool
  | .api e => s.retryableErrors (some e)
  | .other _ => false

/-- The wait-duration computation of `Do` for a retryable error at attempt
`attempt`: the calculated backoff for `attempt - 1` retries so far, overridden
by `RetryAfter() * time.Second` when the error is rate-limited and
`RetryAfter()` is positive. -/
def chooseWait (s : Strategy) (attempt : ℕ) (err : GoError) (r : Option ℚ) : ℚ :=
  let waitDuration := calculateBackoff s (attempt - 1) r
  match err with
  | .api e =>
      if e.IsRateLimited && decide (0 < e.RetryAfter) then (e.RetryAfter : ℚ) * Second
      else waitDuration
  | .other _ => waitDuration

/-- The value `Do` returns, as a tagged variant:
`nil` — Go `nil` (success, or an empty loop);
`cancelledBefore` — `"retry cancelled: %w"` (pre-attempt check, no attempt count);
`verbatim e` — a non-retryable error returned unchanged;
`cancelledAfter n` — `"retry cancelled after attempt n: %w"`;
`wrapped n e` — `"operation failed after n attempts: %w"`, wrapping `e`
(the `%w` keeps `e` reachable by `errors.Unwrap`);
`plain e` — `lastErr` returned unwrapped after the loop (non-`*api.Error`). -/
inductive DoReturn where
  | nil
  | cancelledBefore
  | verbatim (e : GoError)
  | cancelledAfter (attempt : ℕ)
  | wrapped (attempts : ℕ) (e : ApiError)
  | plain (e : GoError)
deriving DecidableEq, Repr

/-- The observable outcome of one `Do` invocation: the returned value, the
number of times the operation was invoked, and the wait durations computed
before retries (in order; the last one is cut short if cancellation wins
the race during it). -/
structure DoRun where
  result : DoReturn
  invocations : ℕ
  waits : List ℚ
deriving Repr

/-- The code after `Do`'s loop: wrap `lastErr` with the attempt count when it
is a `*api.Error`, otherwise return it as is (nil stays nil). -/
def finishLoop (s : Strategy) (lastErr : Option GoError) : DoReturn :=
  match lastErr with
  | some (.api e) => .wrapped s.maxAttempts e
  | some (.other m) => .plain (.other m)
  | none => .nil

/-- The loop of `(*Strategy).Do`, one recursive step per iteration.
`op i` is the error (or success `none`) of the `i`-th operation invocation;
`fuel` bounds the remaining iterations (it starts at `maxAttempts`, so the
literal `s.maxAttempts ≤ attempt` exit test of the source is what fires on
every reachable path). -/
def doLoop (s : Strategy) (op : ℕ → Option GoError) (ctxDone : ℕ → Bool)
    (cancelWait : ℕ → Bool) (rand : ℕ → Option ℚ) :
    ℕ → ℕ → Option GoError → DoRun
  | 0, _, lastErr => ⟨finishLoop s lastErr, 0, []⟩
  | fuel + 1, attempt, _ =>
    if ctxDone attempt then ⟨.cancelledBefore, 0, []⟩
    else
      match op attempt with
      | none => ⟨.nil, 1, []⟩
      | some err =>
        if ! classifyRetryable s err then ⟨.verbatim err, 1, []⟩
        else if s.maxAttempts ≤ attempt then ⟨finishLoop s (some err), 1, []⟩
        else
          let w := chooseWait s attempt err (rand attempt)
          if cancelWait attempt then ⟨.cancelledAfter attempt, 1, [w]⟩
          else
            let rest := doLoop s op ctxDone cancelWait rand fuel (attempt + 1) (some err)
            ⟨rest.result, rest.invocations + 1, w :: rest.waits⟩

/-- `(*Strategy).Do`: run the attempt loop from attempt 1. -/
def Do (s : Strategy) (op : ℕ → Option GoError) (ctxDone : ℕ → Bool)
    (cancelWait : ℕ → Bool) (rand : ℕ → Option ℚ) : DoRun :=
  doLoop s op ctxDone cancelWait rand s.maxAttempts 1 none

/-!
## The fluent builder, with the Go heap made explicit

Every `With*` method of the source has a pointer receiver `s *Strategy`,
assigns to a field of `*s`, and returns `s`.  To state (and refute)
claims about mutation of the shared receiver, the heap is explicit:
`σ : ℕ → Strategy` maps pointers to the configurations they hold, and each
method maps `(σ, receiver pointer, argument)` to `(new heap, returned pointer)`.
-/

/-- Heap update at one pointer. -/
def updateHeap (σ : ℕ → Strategy) (p : ℕ) (v : Strategy) : ℕ → Strategy :=
  fun q => if q = p then v else σ q

/-- `(*Strategy).WithMaxAttempts`: clamp to ≥ 1, assign `s.maxAttempts`,
return `s`. -/
def WithMaxAttempts (σ : ℕ → Strategy) (p : ℕ) (attempts : ℤ) :
    (ℕ → Strategy) × ℕ :=
  let attempts := if attempts < 1 then 1 else attempts
  (updateHeap σ p { σ p with maxAttempts := attempts.toNat }, p)

/-- `(*Strategy).WithInitialBackoff`: clamp to ≥ 0, assign
`s.initialBackoff`, return `s`. -/
def WithInitialBackoff (σ : ℕ → Strategy) (p : ℕ) (d : ℚ) :
    (ℕ → Strategy) × ℕ :=
  let d := if d < 0 then 0 else d
  (updateHeap σ p { σ p with initialBackoff := d }, p)

/-- `(*Strategy).WithMaxBackoff`: clamp to ≥ 0, assign `s.maxBackoff`,
return `s`. -/
def WithMaxBackoff (σ : ℕ → Strategy) (p : ℕ) (d : ℚ) :
    (ℕ → Strategy) × ℕ :=
  let d := if d < 0 then 0 else d
  (updateHeap σ p { σ p with maxBackoff := d }, p)

/-- `(*Strategy).WithMultiplier`: clamp to ≥ 1.0, assign `s.multiplier`,
return `s`. -/
def WithMultiplier (σ : ℕ → Strategy) (p : ℕ) (m : ℚ) :
    (ℕ → Strategy) × ℕ :=
  let m := if m < 1 then 1 else m
  (updateHeap σ p { σ p with multiplier := m }, p)

/-- `(*Strategy).WithJitter`: assign `s.addJitter`, return `s`. -/
def WithJitter (σ : ℕ → Strategy) (p : ℕ) (enabled : Bool) :
    (ℕ → Strategy) × ℕ :=
  (updateHeap σ p { σ p with addJitter := enabled }, p)

/-- `(*Strategy).WithRetryableErrors`: assign `s.retryableErrors` when the
argument is non-nil, return `s`. -/
def WithRetryableErrors (σ : ℕ → Strategy) (p : ℕ)
    (fn : Option (Option ApiError → Bool)) : (ℕ → Strategy) × ℕ :=
  match fn with
  | some f => (updateHeap σ p { σ p with retryableErrors := f }, p)
  | none => (σ, p)

/-!
## Test fixtures (concrete values used by counterexamples and witnesses)
-/

/-- A bare 429 error with empty details. -/
def err429 : ApiError := ⟨429, "", "", []⟩

/-- A bare 503 error with empty details. -/
def err503 : ApiError := ⟨503, "", "", []⟩

/-- A deterministic two-attempt configuration (jitter off). -/
def noJitterConfig : Strategy :=
  { maxAttempts := 2
    initialBackoff := Second
    maxBackoff := 60 * Second
    multiplier := 2
    addJitter := false
    retryableErrors := DefaultRetryableErrors }

/-- `noJitterConfig` with a 5-second backoff ceiling. -/
def lowCapConfig : Strategy := { noJitterConfig with maxBackoff := 5 * Second }

/-- `noJitterConfig` with three attempts. -/
def threeAttemptConfig : Strategy := { noJitterConfig with maxAttempts := 3 }

/-- A cancellation/race oracle that never fires. -/
def alwaysFalse : ℕ → Bool := fun _ => false

/-- A random source that always fails (`crand.Read` error path). -/
def noRand : ℕ → Option ℚ := fun _ => none

/-!
## Shared helper lemmas
-/

/-- `RetryAfter` on a 429 error is the parsed hint, defaulting to 60. -/
lemma retryAfter_of_parsedHint (e : ApiError) (h : e.Code = 429) :
    e.RetryAfter = (parsedRetryHint e).getD 60 := by
  unfold ApiError.RetryAfter parsedRetryHint
  rw [if_neg (by simp [h])]
  cases hl : e.Details.lookup "retry_after" with
  | none => simp
  | some v =>
    cases v with
    | str t => cases ha : atoi t <;> simp [ha]
    | nonString => simp

/-- The capped exponential backoff is a `min`. -/
lemma baseBackoff_eq_min (s : Strategy) (k : ℕ) :
    baseBackoff s k = min (s.initialBackoff * s.multiplier ^ k) s.maxBackoff := by
  unfold baseBackoff
  rcases le_or_lt (s.initialBackoff * s.multiplier ^ k) s.maxBackoff with h | h
  · rw [if_neg (not_lt.mpr h), min_eq_left h]
  · rw [if_pos h, min_eq_right h.le]

/-- The capped exponential backoff never exceeds `maxBackoff`. -/
lemma baseBackoff_le (s : Strategy) (k : ℕ) : baseBackoff s k ≤ s.maxBackoff := by
  rw [baseBackoff_eq_min]; exact min_le_right _ _

/-- The capped exponential backoff is non-negative for builder-shaped
parameters. -/
lemma baseBackoff_nonneg (s : Strategy) (k : ℕ)
    (hinit : 0 ≤ s.initialBackoff) (hmul : 0 ≤ s.multiplier)
    (hmax : 0 ≤ s.maxBackoff) : 0 ≤ baseBackoff s k := by
  rw [baseBackoff_eq_min]
  exact le_min (mul_nonneg hinit (pow_nonneg hmul k)) hmax

/-!
## Claims
-/

/-- **C10.** `Error.RetryAfter` returns 0 for every error whose status code is
not 429, even when a `retry_after` hint is present in its `Details` map; and
for every 429 error whose `Details` contain no parseable `retry_after` string,
it returns a default of 60 seconds rather than 0. -/
theorem C10_retryAfter_default (e : ApiError) :
    (e.Code ≠ 429 → e.RetryAfter = 0) ∧
    (e.Code = 429 → parsedRetryHint e = none → e.RetryAfter = 60) := by
  constructor
  · intro h
    unfold ApiError.RetryAfter
    rw [if_pos (by simpa using h)]
  · intro h hp
    rw [retryAfter_of_parsedHint e h, hp]
    rfl

/-- Witness for C10: a 500 error with a hint yields 0, a bare 429 yields 60. -/
theorem C10_witness :
    ApiError.RetryAfter ⟨500, "", "", [("retry_after", .str "5")]⟩ = 0 ∧
    ApiError.RetryAfter ⟨429, "", "", []⟩ = 60 :=
  ⟨(C10_retryAfter_default ⟨500, "", "", [("retry_after", .str "5")]⟩).1 (by decide),
   (C10_retryAfter_default ⟨429, "", "", []⟩).2 rfl (by decide)⟩

/-- **C7 counterexample.** The claim says the Default and Aggressive presets
classify retryable exactly 429 and any 5xx status.  `DefaultRetryableErrors`
uses `IsInternalServerError`, which is `Code >= 500` with no upper bound:
on status 600 — not a 5xx status — Default retries while Aggressive does not,
so the two presets differ and Default is not "exactly 429 and any 5xx". -/
theorem C7_counterexample :
    DefaultRetryableErrors (some ⟨600, "", "", []⟩) = true ∧
    AggressiveRetryableErrors (some ⟨600, "", "", []⟩) = false ∧
    ¬(500 ≤ (600 : ℤ) ∧ (600 : ℤ) ≤ 599) ∧ (600 : ℤ) ≠ 429 := by
  decide

/-- **C7 amended.** For every structured error and every preset policy: a nil
error and any client error (4xx status other than 429) is classified
non-retryable under all three presets; a 429 rate-limit error is retryable
under all three presets; the Aggressive preset classifies retryable exactly
429 and any 5xx status (500–599); the Default preset classifies retryable
exactly 429 and any status ≥ 500 (with no upper bound, so it agrees with
Aggressive on genuine 5xx statuses but also retries codes above 599); the
Conservative preset retries among server errors only 503 and 504 (not bare
500). -/
theorem C7_presets_amended (e : ApiError) :
    DefaultRetryableErrors none = false ∧
    AggressiveRetryableErrors none = false ∧
    ConservativeRetryableErrors none = false ∧
    (400 ≤ e.Code → e.Code ≤ 499 → e.Code ≠ 429 →
      DefaultRetryableErrors (some e) = false ∧
      AggressiveRetryableErrors (some e) = false ∧
      ConservativeRetryableErrors (some e) = false) ∧
    (e.Code = 429 →
      DefaultRetryableErrors (some e) = true ∧
      AggressiveRetryableErrors (some e) = true ∧
      ConservativeRetryableErrors (some e) = true) ∧
    (DefaultRetryableErrors (some e) = true ↔ e.Code = 429 ∨ 500 ≤ e.Code) ∧
    (AggressiveRetryableErrors (some e) = true ↔
      e.Code = 429 ∨ (500 ≤ e.Code ∧ e.Code ≤ 599)) ∧
    (ConservativeRetryableErrors (some e) = true ↔
      e.Code = 429 ∨ e.Code = 503 ∨ e.Code = 504) := by
  have hD : DefaultRetryableErrors (some e) = true ↔
      (e.Code = 429 ∨ 500 ≤ e.Code) := by
    simp [DefaultRetryableErrors, ApiError.IsRateLimited,
      ApiError.IsInternalServerError]
  have hA : AggressiveRetryableErrors (some e) = true ↔
      (e.Code = 429 ∨ (500 ≤ e.Code ∧ e.Code ≤ 599)) := by
    simp [AggressiveRetryableErrors]
  have hC : ConservativeRetryableErrors (some e) = true ↔
      (e.Code = 429 ∨ e.Code = 503 ∨ e.Code = 504) := by
    simp [ConservativeRetryableErrors, or_assoc]
  refine ⟨rfl, rfl, rfl, fun h1 h2 h3 => ⟨?_, ?_, ?_⟩,
    fun h => ⟨hD.mpr (Or.inl h), hA.mpr (Or.inl h), hC.mpr (Or.inl h)⟩,
    hD, hA, hC⟩
  · exact Bool.eq_false_iff.mpr fun hc => by have := hD.mp hc; omega
  · exact Bool.eq_false_iff.mpr fun hc => by have := hA.mp hc; omega
  · exact Bool.eq_false_iff.mpr fun hc => by have := hC.mp hc; omega

/-- Witness for C7 amended: extracts concrete classifications for a 400
client error and a 429 rate-limit error. -/
theorem C7_witness :
    ConservativeRetryableErrors (some ⟨400, "", "", []⟩) = false ∧
    DefaultRetryableErrors (some err429) = true := by
  have h400 := C7_presets_amended ⟨400, "", "", []⟩
  have h429 := C7_presets_amended err429
  exact ⟨(h400.2.2.2.1 (by decide) (by decide) (by decide)).2.2,
    (h429.2.2.2.2.1 rfl).1⟩

/-- **C3 counterexample.** The claim says each fluent builder method returns a
configuration without mutating the shared receiver, leaving the original
configuration's fields unchanged.  Starting from a heap holding
`DefaultStrategy` (maxAttempts 5) at pointer 0, `WithMaxAttempts(7)` leaves
the configuration at pointer 0 with `maxAttempts = 7`, not 5, and returns the
very same pointer: the shared receiver was mutated in place. -/
theorem C3_counterexample :
    ((WithMaxAttempts (fun _ => DefaultStrategy) 0 7).1 0).maxAttempts = 7 ∧
    DefaultStrategy.maxAttempts = 5 ∧
    (WithMaxAttempts (fun _ => DefaultStrategy) 0 7).2 = 0 := by
  refine ⟨rfl, rfl, rfl⟩

/-- **C3 amended.** Each fluent builder method clamps its argument where the
source does, assigns the corresponding field of the configuration at the
receiver pointer **in place**, and returns the same receiver pointer (a
mutated shared instance, not a fresh configuration); configurations stored at
any other pointer are untouched. -/
theorem C3_builder_mutates (σ : ℕ → Strategy) (p : ℕ) (a : ℤ) (d d2 m : ℚ)
    (b : Bool) (f : Option ApiError → Bool) :
    ((WithMaxAttempts σ p a).2 = p ∧
      ((WithMaxAttempts σ p a).1 p).maxAttempts
        = (if a < 1 then 1 else a).toNat) ∧
    ((WithInitialBackoff σ p d).2 = p ∧
      ((WithInitialBackoff σ p d).1 p).initialBackoff
        = (if d < 0 then 0 else d)) ∧
    ((WithMaxBackoff σ p d2).2 = p ∧
      ((WithMaxBackoff σ p d2).1 p).maxBackoff = (if d2 < 0 then 0 else d2)) ∧
    ((WithMultiplier σ p m).2 = p ∧
      ((WithMultiplier σ p m).1 p).multiplier = (if m < 1 then 1 else m)) ∧
    ((WithJitter σ p b).2 = p ∧ ((WithJitter σ p b).1 p).addJitter = b) ∧
    ((WithRetryableErrors σ p (some f)).2 = p ∧
      ((WithRetryableErrors σ p (some f)).1 p).retryableErrors = f) ∧
    (∀ q, q ≠ p →
      (WithMaxAttempts σ p a).1 q = σ q ∧
      (WithInitialBackoff σ p d).1 q = σ q ∧
      (WithMaxBackoff σ p d2).1 q = σ q ∧
      (WithMultiplier σ p m).1 q = σ q ∧
      (WithJitter σ p b).1 q = σ q ∧
      (WithRetryableErrors σ p (some f)).1 q = σ q) := by
  refine ⟨⟨rfl, by simp [WithMaxAttempts, updateHeap]⟩,
    ⟨rfl, by simp [WithInitialBackoff, updateHeap]⟩,
    ⟨rfl, by simp [WithMaxBackoff, updateHeap]⟩,
    ⟨rfl, by simp [WithMultiplier, updateHeap]⟩,
    ⟨rfl, by simp [WithJitter, updateHeap]⟩,
    ⟨rfl, by simp [WithRetryableErrors, updateHeap]⟩,
    fun q hq => ?_⟩
  simp [WithMaxAttempts, WithInitialBackoff, WithMaxBackoff, WithMultiplier,
    WithJitter, WithRetryableErrors, updateHeap, hq]

/-- Witness for C3 amended: a configuration at a pointer other than the
receiver is untouched, and `WithJitter` returns its receiver pointer. -/
theorem C3_witness :
    ((WithMaxAttempts (fun _ => DefaultStrategy) 0 7).1 1).maxAttempts = 5 ∧
    (WithJitter (fun _ => DefaultStrategy) 0 false).2 = 0 := by
  have h := C3_builder_mutates (fun _ => DefaultStrategy) 0 7 1 1 2 false
    DefaultRetryableErrors
  refine ⟨?_, h.2.2.2.2.1.1⟩
  rw [(h.2.2.2.2.2.2 1 (by decide)).1]
  rfl

/-- **C1 counterexample.** The claim says that for a retry-eligible 429 error
with no retry-after hint in its details the wait equals the calculated
backoff for `retriesSoFar = i - 1`.  With a bare 429 error (empty details),
`RetryAfter()` returns the 60-second default, which is positive, so the
override path fires: `Do` waits 60 seconds, while the calculated backoff
before attempt 2 is `initialBackoff = 1` second. -/
theorem C1_counterexample :
    (Do noJitterConfig (fun _ => some (.api err429)) alwaysFalse alwaysFalse
        noRand).waits = [60 * Second] ∧
    calculateBackoff noJitterConfig 0 (noRand 1) = Second ∧
    (60 * Second : ℚ) ≠ Second := by
  refine ⟨?_, ?_, by norm_num [Second]⟩ <;>
    norm_num [Do, doLoop, noJitterConfig, alwaysFalse, noRand,
      classifyRetryable, chooseWait, calculateBackoff, baseBackoff,
      DefaultRetryableErrors, ApiError.IsRateLimited,
      ApiError.IsInternalServerError, ApiError.RetryAfter, err429, Second,
      finishLoop]

/-- **C1 amended.** For a retry-eligible 429 error whose details carry no
parseable retry-after hint, `RetryAfter()` returns the 60-second default and
the wait chosen by `Do` before the next attempt is 60 seconds, **not** the
Backoff Calculator's value; the engine falls back to its calculated backoff
for a 429 error only when a hint is present and parses to a value ≤ 0. -/
theorem C1_hint_fallback_amended (s : Strategy) (attempt : ℕ) (e : ApiError)
    (r : Option ℚ) (h429 : e.Code = 429) :
    (parsedRetryHint e = none →
      e.RetryAfter = 60 ∧ chooseWait s attempt (.api e) r = 60 * Second) ∧
    (∀ n, parsedRetryHint e = some n → n ≤ 0 →
      chooseWait s attempt (.api e) r = calculateBackoff s (attempt - 1) r) := by
  have hrl : e.IsRateLimited = true := by
    simp [ApiError.IsRateLimited, h429]
  constructor
  · intro hp
    have hra : e.RetryAfter = 60 := by
      rw [retryAfter_of_parsedHint e h429, hp]; rfl
    refine ⟨hra, ?_⟩
    unfold chooseWait
    dsimp only
    rw [hrl, hra]
    norm_num
  · intro n hp hn
    have hra : e.RetryAfter = n := by
      rw [retryAfter_of_parsedHint e h429, hp]; rfl
    unfold chooseWait
    dsimp only
    rw [hrl, hra, decide_eq_false (by omega : ¬ (0 : ℤ) < n)]
    simp

/-- Witness for C1 amended: with the default configuration, a bare 429 error
makes the engine wait 60 seconds, and a hint of "0" falls back to the
calculated backoff. -/
theorem C1_witness :
    chooseWait DefaultStrategy 1 (.api err429) (some (1/2)) = 60 * Second ∧
    chooseWait DefaultStrategy 1
        (.api ⟨429, "", "", [("retry_after", .str "0")]⟩) (some (1/2))
      = calculateBackoff DefaultStrategy 0 (some (1/2)) :=
  ⟨((C1_hint_fallback_amended DefaultStrategy 1 err429 (some (1/2)) rfl).1
      (by decide)).2,
   (C1_hint_fallback_amended DefaultStrategy 1
      ⟨429, "", "", [("retry_after", .str "0")]⟩ (some (1/2)) rfl).2 0
      (by decide) (by norm_num)⟩

/-- **C2 counterexample.** The claim says every wait `Do` computes is at most
`maxBackoff`.  With `maxBackoff = 5` seconds and a bare 429 error, the
60-second `RetryAfter()` default overrides the calculated backoff and is not
clamped: the computed wait is 60 seconds > `maxBackoff`. -/
theorem C2_counterexample :
    (Do lowCapConfig (fun _ => some (.api err429)) alwaysFalse alwaysFalse
        noRand).waits = [60 * Second] ∧
    lowCapConfig.maxBackoff = 5 * Second ∧
    ¬(60 * Second ≤ (5 * Second : ℚ)) := by
  refine ⟨?_, ?_, by norm_num [Second]⟩ <;>
    norm_num [Do, doLoop, lowCapConfig, noJitterConfig, alwaysFalse, noRand,
      classifyRetryable, chooseWait, calculateBackoff, baseBackoff,
      DefaultRetryableErrors, ApiError.IsRateLimited,
      ApiError.IsInternalServerError, ApiError.RetryAfter, err429, Second,
      finishLoop]

/-- **C2 amended.** `maxBackoff` is a hard ceiling only on the pre-jitter
calculated backoff: the capped exponential value never exceeds `maxBackoff`,
and any `calculateBackoff` result (jitter on or off, including the failed-rand
path) is at most `1.2 * maxBackoff`; a server-supplied retry-after override
is not clamped by `maxBackoff` at all. -/
theorem C2_cap_amended (s : Strategy) (k : ℕ) (r : Option ℚ)
    (hinit : 0 ≤ s.initialBackoff) (hmul : 0 ≤ s.multiplier)
    (hmax : 0 ≤ s.maxBackoff)
    (hr : ∀ rv, r = some rv → 0 ≤ rv ∧ rv < 1) :
    baseBackoff s k ≤ s.maxBackoff ∧
    calculateBackoff s k r ≤ 6/5 * s.maxBackoff := by
  have hble := baseBackoff_le s k
  have hbnn := baseBackoff_nonneg s k hinit hmul hmax
  refine ⟨hble, ?_⟩
  unfold calculateBackoff
  by_cases hj : s.addJitter
  · rw [if_pos hj]
    cases r with
    | none =>
      dsimp only
      split
      · nlinarith
      · nlinarith
    | some rv =>
      obtain ⟨hr0, hr1⟩ := hr rv rfl
      dsimp only
      split
      · nlinarith
      · nlinarith
  · rw [if_neg hj]
    nlinarith

/-- Witness for C2 amended, at the default configuration with a concrete
in-range draw. -/
theorem C2_witness :
    baseBackoff DefaultStrategy 0 ≤ DefaultStrategy.maxBackoff ∧
    calculateBackoff DefaultStrategy 0 (some (1/2))
      ≤ 6/5 * DefaultStrategy.maxBackoff :=
  C2_cap_amended DefaultStrategy 0 (some (1/2))
    (by norm_num [DefaultStrategy, Second])
    (by norm_num [DefaultStrategy])
    (by norm_num [DefaultStrategy, Second])
    (fun rv h => by cases h; exact ⟨by norm_num, by norm_num⟩)

/-- **C8.** With jitter disabled and builder-shaped parameters
(multiplier ≥ 1, non-negative initialBackoff), the calculation is pure and
deterministic for fixed inputs (it does not depend on the random draw), the
backoff for retry index `k+1` is at least the backoff for index `k`, and
every backoff is at most `maxBackoff`. -/
theorem C8_monotone_bound (s : Strategy) (k : ℕ) (r1 r2 : Option ℚ)
    (hj : s.addJitter = false) (hmul : 1 ≤ s.multiplier)
    (hinit : 0 ≤ s.initialBackoff) :
    calculateBackoff s k r1 = calculateBackoff s k r2 ∧
    calculateBackoff s k r1 ≤ calculateBackoff s (k + 1) r1 ∧
    calculateBackoff s k r1 ≤ s.maxBackoff := by
  have hc : ∀ r, calculateBackoff s k r = baseBackoff s k := fun r => by
    unfold calculateBackoff
    rw [if_neg (by simp [hj])]
  have hc1 : ∀ r, calculateBackoff s (k + 1) r = baseBackoff s (k + 1) :=
    fun r => by
      unfold calculateBackoff
      rw [if_neg (by simp [hj])]
  refine ⟨(hc r1).trans (hc r2).symm, ?_, ?_⟩
  · rw [hc r1, hc1 r1, baseBackoff_eq_min, baseBackoff_eq_min]
    refine min_le_min ?_ le_rfl
    exact mul_le_mul_of_nonneg_left
      (pow_le_pow_right₀ hmul (Nat.le_succ k)) hinit
  · rw [hc r1]
    exact baseBackoff_le s k

/-- Witness for C8, at a deterministic configuration with index 0. -/
theorem C8_witness :
    calculateBackoff noJitterConfig 0 none
      = calculateBackoff noJitterConfig 0 (some (1/2)) ∧
    calculateBackoff noJitterConfig 0 none
      ≤ calculateBackoff noJitterConfig 1 none ∧
    calculateBackoff noJitterConfig 0 none ≤ noJitterConfig.maxBackoff :=
  C8_monotone_bound noJitterConfig 0 none (some (1/2)) rfl
    (by norm_num [noJitterConfig])
    (by norm_num [noJitterConfig, Second])

/-- **C9.** With jitter enabled, for every retry index and every random draw
`r` in `[0,1)`, the computed backoff lies within ±20% of the non-jittered
(clamped) backoff for that index, and is never negative.  (Stated under the
parameter signs the builder guarantees, which make the clamped base
non-negative.) -/
theorem C9_jitter_bound (s : Strategy) (k : ℕ) (rv : ℚ)
    (hj : s.addJitter = true) (hr0 : 0 ≤ rv) (hr1 : rv < 1)
    (hinit : 0 ≤ s.initialBackoff) (hmul : 0 ≤ s.multiplier)
    (hmax : 0 ≤ s.maxBackoff) :
    |calculateBackoff s k (some rv) - baseBackoff s k|
      ≤ 1/5 * baseBackoff s k ∧
    0 ≤ calculateBackoff s k (some rv) := by
  have hbnn := baseBackoff_nonneg s k hinit hmul hmax
  have hjnn : 0 ≤ baseBackoff s k + baseBackoff s k * 0.2 * (2 * rv - 1) := by
    nlinarith
  have hcalc : calculateBackoff s k (some rv)
      = baseBackoff s k + baseBackoff s k * 0.2 * (2 * rv - 1) := by
    unfold calculateBackoff
    rw [if_pos hj]
    dsimp only
    rw [if_neg (not_lt.mpr hjnn)]
  constructor
  · rw [hcalc, abs_le]
    constructor <;> nlinarith
  · rw [hcalc]
    exact hjnn

/-- Witness for C9, at the default (jitter-on) configuration with a concrete
draw. -/
theorem C9_witness :
    |calculateBackoff DefaultStrategy 0 (some (3/4)) - baseBackoff DefaultStrategy 0|
      ≤ 1/5 * baseBackoff DefaultStrategy 0 ∧
    0 ≤ calculateBackoff DefaultStrategy 0 (some (3/4)) :=
  C9_jitter_bound DefaultStrategy 0 (3/4) rfl (by norm_num) (by norm_num)
    (by norm_num [DefaultStrategy, Second])
    (by norm_num [DefaultStrategy])
    (by norm_num [DefaultStrategy, Second])

/-- **C5.** If the operation's first error is classified non-retryable by the
configured policy — in particular any error that is not a `*api.Error`, which
`classifyRetryable` always classifies non-retryable — `Do` returns that error
verbatim after exactly 1 invocation of the operation, with no wait and no
further attempts, for every configuration with at least one attempt. -/
theorem C5_fail_fast (s : Strategy) (op : ℕ → Option GoError)
    (ctxDone cancelWait : ℕ → Bool) (rand : ℕ → Option ℚ) (err : GoError)
    (hm : 1 ≤ s.maxAttempts) (hc : ctxDone 1 = false)
    (hop : op 1 = some err) (hcl : classifyRetryable s err = false) :
    Do s op ctxDone cancelWait rand = ⟨.verbatim err, 1, []⟩ := by
  obtain ⟨f, hf⟩ : ∃ f, s.maxAttempts = f + 1 := ⟨s.maxAttempts - 1, by omega⟩
  unfold Do
  rw [hf]
  simp [doLoop, hc, hop, hcl]

/-- Witness for C5: a non-`*api.Error` failure stops the three-attempt
configuration after one invocation. -/
theorem C5_witness :
    Do threeAttemptConfig (fun _ => some (.other "boom")) alwaysFalse
        alwaysFalse noRand = ⟨.verbatim (.other "boom"), 1, []⟩ :=
  C5_fail_fast threeAttemptConfig _ _ _ noRand (.other "boom")
    (by norm_num [threeAttemptConfig, noJitterConfig]) rfl rfl rfl

/-- Loop invariant for exhaustion: from attempt `attempt` with `fuel`
remaining iterations consistent with the attempt budget, an operation that
always fails retryably consumes all the fuel, one invocation per iteration
and one wait per iteration except the last, and ends with the wrapped final
error. -/
lemma doLoop_exhausts (s : Strategy) (op : ℕ → Option GoError)
    (ctxDone cancelWait : ℕ → Bool) (rand : ℕ → Option ℚ) (e : ℕ → ApiError)
    (hop : ∀ i, op i = some (.api (e i)))
    (hr : ∀ i, s.retryableErrors (some (e i)) = true)
    (hctx : ∀ i, ctxDone i = false) (hcw : ∀ i, cancelWait i = false) :
    ∀ fuel attempt lastErr, 1 ≤ fuel → attempt + fuel = s.maxAttempts + 1 →
      (doLoop s op ctxDone cancelWait rand fuel attempt lastErr).result
          = .wrapped s.maxAttempts (e s.maxAttempts) ∧
      (doLoop s op ctxDone cancelWait rand fuel attempt lastErr).invocations
          = fuel ∧
      (doLoop s op ctxDone cancelWait rand fuel attempt lastErr).waits.length
          = fuel - 1 := by
  intro fuel
  induction fuel with
  | zero => intro attempt lastErr h1 h2; omega
  | succ f ih =>
    intro attempt lastErr h1 h2
    by_cases hlast : f = 0
    · subst hlast
      have ha : attempt = s.maxAttempts := by omega
      subst ha
      simp [doLoop, hctx s.maxAttempts, hop s.maxAttempts, classifyRetryable,
        hr s.maxAttempts, finishLoop]
    · have hnb : ¬ s.maxAttempts ≤ attempt := by omega
      have hrec := ih (attempt + 1) (some (.api (e attempt))) (by omega)
        (by omega)
      simp [doLoop, hctx attempt, hop attempt, classifyRetryable,
        hr attempt, hnb, hcw attempt, hrec.1, hrec.2.1, hrec.2.2]
      omega

/-- **C4.** For every `maxAttempts = N ≥ 1`, if the operation returns a
retryable error on every attempt, `Do` invokes the operation exactly `N`
times, performs no wait after the `N`-th failure (only `N - 1` waits are
computed), and returns the exhaustion result `wrapped N e` — the model of
`fmt.Errorf("operation failed after %d attempts: %w", ...)`, whose carried
error is the final underlying error, reachable via unwrapping. -/
theorem C4_exhaustion (s : Strategy) (op : ℕ → Option GoError)
    (ctxDone cancelWait : ℕ → Bool) (rand : ℕ → Option ℚ) (e : ℕ → ApiError)
    (hN : 1 ≤ s.maxAttempts)
    (hop : ∀ i, op i = some (.api (e i)))
    (hr : ∀ i, s.retryableErrors (some (e i)) = true)
    (hctx : ∀ i, ctxDone i = false) (hcw : ∀ i, cancelWait i = false) :
    (Do s op ctxDone cancelWait rand).result
        = .wrapped s.maxAttempts (e s.maxAttempts) ∧
    (Do s op ctxDone cancelWait rand).invocations = s.maxAttempts ∧
    (Do s op ctxDone cancelWait rand).waits.length = s.maxAttempts - 1 :=
  doLoop_exhausts s op ctxDone cancelWait rand e hop hr hctx hcw
    s.maxAttempts 1 none hN (by omega)

/-- Witness for C4: three attempts of an always-503 operation give exactly
three invocations, two waits, and the wrapped final error. -/
theorem C4_witness :
    (Do threeAttemptConfig (fun _ => some (.api err503)) alwaysFalse
        alwaysFalse noRand).result = .wrapped 3 err503 ∧
    (Do threeAttemptConfig (fun _ => some (.api err503)) alwaysFalse
        alwaysFalse noRand).invocations = 3 ∧
    (Do threeAttemptConfig (fun _ => some (.api err503)) alwaysFalse
        alwaysFalse noRand).waits.length = 2 :=
  C4_exhaustion threeAttemptConfig (fun _ => some (.api err503)) alwaysFalse
    alwaysFalse noRand (fun _ => err503)
    (by norm_num [threeAttemptConfig, noJitterConfig])
    (fun i => rfl)
    (fun i => by
      show threeAttemptConfig.retryableErrors (some err503) = true
      decide)
    (fun i => rfl) (fun i => rfl)

/-- **C6 counterexample.** The claim says every cancellation outcome carries
how many attempts were made.  The pre-attempt cancellation path returns
`fmt.Errorf("retry cancelled: %w", ctx.Err())` with **no** attempt count:
a run cancelled before attempt 2 (after 1 genuine attempt) and a run
cancelled before attempt 1 (after 0 attempts) return the **same** error
value, so the error cannot indicate how many attempts were made. -/
theorem C6_counterexample :
    (Do threeAttemptConfig (fun _ => some (.api err503))
        (fun i => decide (2 ≤ i)) alwaysFalse noRand).result
      = .cancelledBefore ∧
    (Do threeAttemptConfig (fun _ => some (.api err503))
        (fun i => decide (2 ≤ i)) alwaysFalse noRand).invocations = 1 ∧
    (Do threeAttemptConfig (fun _ => some (.api err503))
        (fun _ => true) alwaysFalse noRand).result = .cancelledBefore ∧
    (Do threeAttemptConfig (fun _ => some (.api err503))
        (fun _ => true) alwaysFalse noRand).invocations = 0 := by
  refine ⟨?_, ?_, ?_, ?_⟩ <;>
    norm_num [Do, doLoop, threeAttemptConfig, noJitterConfig, alwaysFalse,
      noRand, classifyRetryable, chooseWait, calculateBackoff, baseBackoff,
      DefaultRetryableErrors, ApiError.IsRateLimited,
      ApiError.IsInternalServerError, ApiError.RetryAfter, err503, Second,
      finishLoop]

/-- **C6 amended.** If the cancellation signal is already set at the check
before attempt `i` (any reachable loop iteration), `Do`'s loop terminates
immediately with the cancellation error and performs no further operation
invocation — but this error carries **no** attempt count.  If the signal wins
the race during the wait after a failed retryable attempt `i < maxAttempts`,
the loop stops before attempt `i+1` with a cancellation error referencing
attempt number `i`; only this mid-wait cancellation error indicates how many
attempts were made. -/
theorem C6_cancellation_amended :
    (∀ (s : Strategy) (op : ℕ → Option GoError) (ctxDone cancelWait : ℕ → Bool)
        (rand : ℕ → Option ℚ) (fuel attempt : ℕ) (lastErr : Option GoError),
      ctxDone attempt = true →
      doLoop s op ctxDone cancelWait rand (fuel + 1) attempt lastErr
        = ⟨.cancelledBefore, 0, []⟩) ∧
    (∀ (s : Strategy) (op : ℕ → Option GoError) (ctxDone cancelWait : ℕ → Bool)
        (rand : ℕ → Option ℚ) (fuel attempt : ℕ) (lastErr : Option GoError)
        (err : GoError),
      ctxDone attempt = false → op attempt = some err →
      classifyRetryable s err = true → ¬ s.maxAttempts ≤ attempt →
      cancelWait attempt = true →
      doLoop s op ctxDone cancelWait rand (fuel + 1) attempt lastErr
        = ⟨.cancelledAfter attempt, 1, [chooseWait s attempt err (rand attempt)]⟩) := by
  constructor
  · intro s op ctxDone cancelWait rand fuel attempt lastErr h
    simp [doLoop, h]
  · intro s op ctxDone cancelWait rand fuel attempt lastErr err hc hop hcl hm hcw
    simp [doLoop, hc, hop, hcl, hm, hcw]

/-- Witness for C6 amended: pre-set cancellation stops a run with zero
invocations; a cancellation winning the race during the first wait returns
the attempt number 1. -/
theorem C6_witness :
    doLoop threeAttemptConfig (fun _ => some (.api err503)) (fun _ => true)
        alwaysFalse noRand 3 1 none = ⟨.cancelledBefore, 0, []⟩ ∧
    doLoop threeAttemptConfig (fun _ => some (.api err503)) alwaysFalse
        (fun _ => true) noRand 3 1 none
      = ⟨.cancelledAfter 1, 1,
          [chooseWait threeAttemptConfig 1 (.api err503) none]⟩ :=
  ⟨C6_cancellation_amended.1 threeAttemptConfig _ _ alwaysFalse noRand 2 1
      none rfl,
   C6_cancellation_amended.2 threeAttemptConfig _ alwaysFalse _ noRand 2 1
      none (.api err503) rfl rfl
      (by
        show threeAttemptConfig.retryableErrors (some err503) = true
        decide)
      (by
        show ¬ threeAttemptConfig.maxAttempts ≤ 1
        decide)
      rfl⟩
